import Mathlib

/-!
Shallow embedding of the `aircraft_builder` core of the ppzuav repository:
`system_validator.py`, `ai_human_mission_planner.py`, `ai_pilot.py` and
`aircraft_builder.py`.  Python floats are modelled as exact rationals (ℚ);
Python's salted `hash(str(...))` is modelled as an arbitrary parameter
`h : ℚ → ℤ` (the composition of `hash` with `str`); dictionary keys read
with `.get` and a default are modelled as `Option` fields consumed with
`Option.getD`; code that can raise (`ZeroDivisionError`, `min` of an empty
sequence) returns `Option`.
-/

namespace PpzUav

/-! ## system_validator.py -/

/-- The boundary polygon of `SystemValidator._decode_validation_params`:
the base64 payload decodes to exactly this list, which is also the literal
fallback polygon.  Entries are `(x, y) = (longitude, latitude)` pairs, as
unpacked by `p1x, p1y = polygon[0]`. -/
def boundaryPolygon : List (ℚ × ℚ) :=
  [(-124.733174, 25.898697),
   (-166.448597, 68.005556),
   (-159.782143, 67.418556),
   (-156.542969, 20.601183),
   (-81.459594, 26.125289),
   (-81.277778, 25.898697)]

/-- One iteration of the ray-casting loop body of
`SystemValidator._point_in_polygon` for the edge `(p1, p2)`. -/
def pipEdgeStep (x y : ℚ) (inside : Bool) (p1 p2 : ℚ × ℚ) : Bool :=
  let p1x := p1.1; let p1y := p1.2
  let p2x := p2.1; let p2y := p2.2
  if y > min p1y p2y then
    if y ≤ max p1y p2y then
      if x ≤ max p1x p2x then
        if p1y ≠ p2y then
          let xinters := (y - p1y) * (p2x - p1x) / (p2y - p1y) + p1x
          if p1x = p2x ∨ x ≤ xinters then !inside else inside
        else inside
      else inside
    else inside
  else inside

/-- `SystemValidator._point_in_polygon(latitude, longitude, polygon)`:
ray-casting over the edges `(v0,v1), (v1,v2), …, (v_{n-1}, v0)` with
`x = longitude`, `y = latitude`.  (The Python loop indexes `polygon[i % n]`
for `i = 1 … n`, starting from `p1 = polygon[0]`.) -/
def point_in_polygon (latitude longitude : ℚ) (polygon : List (ℚ × ℚ)) : Bool :=
  match polygon with
  | [] => false
  | p0 :: rest =>
    let edges := (p0 :: rest).zip (rest ++ [p0])
    edges.foldl (fun inside e => pipEdgeStep longitude latitude inside e.1 e.2) false

/-- Result record of `SystemValidator.validate_operational_area`. -/
structure ValidationResult where
  valid : Bool
  signal_strength : ℚ
  system_health : ℚ
  calibration_status : String
  deriving Repr, DecidableEq

/-- `(hash(str(v)) % 100) / 100` — the deterministic jitter used by
`validate_operational_area`; `h` stands for `hash ∘ str`.  Python's `%`
on a positive modulus agrees with `Int.emod`. -/
def hashJitter (h : ℚ → ℤ) (v : ℚ) : ℚ := ((h v) % 100 : ℤ) / 100

/-- `SystemValidator.validate_operational_area(latitude, longitude)` with
simulator mode `simMode`; `h` models Python's salted `hash(str(·))`. -/
def validate_operational_area (h : ℚ → ℤ) (simMode : Bool)
    (latitude longitude : ℚ) : ValidationResult :=
  if simMode then
    { valid := true
      signal_strength := 95 + 5 * hashJitter h (latitude + longitude)
      system_health := 98
      calibration_status := "SIM_CALIBRATED" }
  else if ¬ point_in_polygon latitude longitude boundaryPolygon then
    { valid := false
      signal_strength := 15 + 25 * hashJitter h latitude
      system_health := 25 + 35 * hashJitter h longitude
      calibration_status := "POOR_SIGNAL" }
  else
    { valid := true
      signal_strength := 80 + 15 * hashJitter h latitude
      system_health := 85 + 10 * hashJitter h longitude
      calibration_status := "OPERATIONAL" }

/-- `SystemValidator.perform_system_validation(latitude, longitude)`:
the geofence pass/fail gate (the `_last_validation` bookkeeping does not
affect the returned boolean). -/
def perform_system_validation (h : ℚ → ℤ) (simMode : Bool)
    (latitude longitude : ℚ) : Bool :=
  let r := validate_operational_area h simMode latitude longitude
  r.valid && decide (r.signal_strength > 70) && decide (r.system_health > 75)

/-- Module-level `validate_mission_area(latitude, longitude, is_simulation)`:
sets simulator mode on the singleton validator and runs
`perform_system_validation`. -/
def validate_mission_area (h : ℚ → ℤ) (latitude longitude : ℚ)
    (is_simulation : Bool) : Bool :=
  perform_system_validation h is_simulation latitude longitude

/-! ## ai_human_mission_planner.py

Mission parameters are a nested dictionary; every field read by the scorers
goes through `.get` with a default, so each is modelled as a structure field
whose default value is the `.get` default. -/

/-- `mission_params["aircraft"]` as read by the technical scorer. -/
structure AircraftParams where
  takeoff_weight : ℚ := 0
  max_flight_time : ℚ := 0
  deriving Repr, DecidableEq

/-- `mission_params["flight_plan"]` as read by the scorers. -/
structure FlightPlanParams where
  estimated_duration : ℚ := 0
  max_altitude : ℚ := 0
  deriving Repr, DecidableEq

/-- `mission_params["weather"]` as read by the weather scorer. -/
structure WeatherParams where
  wind_speed : ℚ := 0
  visibility : ℚ := 10
  condition : String := "vfr"
  deriving Repr, DecidableEq

/-- `mission_params["location"]`. -/
structure LocationParams where
  latitude : ℚ := 0
  longitude : ℚ := 0
  deriving Repr, DecidableEq

/-- The mission-parameters record consumed by
`AIMissionPlanner.analyze_mission_parameters`. -/
structure MissionParams where
  aircraft : AircraftParams := {}
  flight_plan : FlightPlanParams := {}
  weather : WeatherParams := {}
  location : LocationParams := {}
  controlled_airspace : Bool := false
  airspace_authorization : Bool := false
  is_simulation : Bool := true
  deriving Repr, DecidableEq

/-- A domain score: the numeric score plus the accumulated issue strings
(the `details` sub-dictionary is pure presentation and is not modelled). -/
structure DomainScore where
  score : ℚ
  issues : List String
  deriving Repr, DecidableEq

/-- `AIMissionPlanner._analyze_technical_parameters`. -/
def analyze_technical_parameters (p : MissionParams) : DomainScore :=
  let weight := p.aircraft.takeoff_weight
  let wres : List String × ℚ :=
    if weight > 250 then (["🔴 Aircraft exceeds 250g FAA limit"], 40)
    else if weight > 225 then (["🟡 Aircraft near weight limit"], 15)
    else ([], 0)
  let flight_time := p.flight_plan.estimated_duration
  let battery_time := p.aircraft.max_flight_time
  let bres : List String × ℚ :=
    if flight_time ≥ battery_time * 0.9 then (["🔴 Insufficient battery margin"], 30)
    else if flight_time ≥ battery_time * 0.8 then (["🟡 Low battery margin"], 15)
    else ([], 0)
  { score := max 0 (100 - wres.2 - bres.2), issues := wres.1 ++ bres.1 }

/-- `AIMissionPlanner._analyze_weather_conditions`. -/
def analyze_weather_conditions (w : WeatherParams) : DomainScore :=
  let wind : List String × ℚ :=
    if w.wind_speed > 15 then (["🔴 Wind speed exceeds safe limits"], 35)
    else if w.wind_speed > 10 then (["🟡 Moderate wind conditions"], 15)
    else ([], 0)
  let vis : List String × ℚ :=
    if w.visibility < 3 then (["🔴 Poor visibility conditions"], 30)
    else if w.visibility < 5 then (["🟡 Limited visibility"], 10)
    else ([], 0)
  let cond : List String × ℚ :=
    if w.condition = "ifr" then (["🔴 IFR conditions not suitable for drone ops"], 40)
    else if w.condition = "mvfr" then (["🟡 Marginal VFR conditions"], 15)
    else ([], 0)
  { score := max 0 (100 - wind.2 - vis.2 - cond.2), issues := wind.1 ++ vis.1 ++ cond.1 }

/-- `AIMissionPlanner._check_regulatory_compliance`. -/
def check_regulatory_compliance (p : MissionParams) : DomainScore :=
  let max_alt := p.flight_plan.max_altitude
  let alt : List String × ℚ :=
    if max_alt > 120 then (["🔴 Altitude exceeds 400ft AGL limit"], 40)
    else if max_alt > 100 then (["🟡 Operating near altitude limit"], 10)
    else ([], 0)
  let air : List String × ℚ :=
    if p.controlled_airspace then
      if p.airspace_authorization then (["🟢 Controlled airspace - authorized"], 0)
      else (["🔴 No authorization for controlled airspace"], 50)
    else ([], 0)
  { score := max 0 (100 - alt.2 - air.2), issues := alt.1 ++ air.1 }

/-- The analysis record returned by `analyze_mission_parameters`
(the `risk_factors` and `supporting_data` entries are never written after
initialisation and are not modelled). -/
structure MissionAnalysis where
  technical_assessment : DomainScore
  weather_analysis : DomainScore
  regulatory_compliance : DomainScore
  key_concerns : List String
  ai_confidence : ℚ
  ai_recommendation : String
  deriving Repr, DecidableEq

/-- `AIMissionPlanner.analyze_mission_parameters`; `h` models Python's
salted `hash(str(·))` used inside the system validator. -/
def analyze_mission_parameters (h : ℚ → ℤ) (p : MissionParams) : MissionAnalysis :=
  let tech := analyze_technical_parameters p
  let wea := analyze_weather_conditions p.weather
  let reg := check_regulatory_compliance p
  let validation_result :=
    validate_mission_area h p.location.latitude p.location.longitude p.is_simulation
  let scores : List ℚ :=
    [tech.score, wea.score, reg.score] ++ (if validation_result then [85] else [25])
  let conf := scores.sum / (scores.length : ℚ)
  { technical_assessment := tech
    weather_analysis := wea
    regulatory_compliance := reg
    key_concerns :=
      if validation_result then [] else ["System validation indicates poor signal conditions"]
    ai_confidence := conf
    ai_recommendation :=
      if conf ≥ 85 then "GO" else if conf ≥ 70 then "CAUTION" else "NO-GO" }

/-! ## ai_pilot.py -/

/-- The `airspeeds` dictionary of the loaded aircraft data;
`calculate_performance` indexes it directly (a missing key would raise),
so the fields are required. -/
structure Airspeeds where
  Vs : ℚ
  Vx : ℚ
  Vy : ℚ
  Vno : ℚ
  deriving Repr, DecidableEq

/-- The aircraft data returned by `AIPilot.load_aircraft_data` (from file or
the hardcoded default), restricted to the fields the planning path reads;
`estimated_flight_time` and `battery_reserve` are read with `.get` defaults,
hence `Option`. -/
structure AircraftData where
  estimated_flight_time : Option ℚ := none
  battery_reserve : Option ℚ := none
  airspeeds : Airspeeds
  deriving Repr, DecidableEq

/-- The `metar` block of `WeatherService.get_weather`'s result, restricted
to the fields read downstream. -/
structure Metar where
  wind_speed : ℚ
  visibility : ℚ
  ceiling : ℚ
  deriving Repr, DecidableEq

/-- The weather record of `WeatherService.get_weather`; `flight_risk` is
read by `make_go_no_go_decision` with `.get` and no default, hence `Option`. -/
structure WeatherData where
  metar : Metar
  flight_risk : Option String
  deriving Repr, DecidableEq

/-- `WeatherService.assess_flight_risk`. -/
def assess_flight_risk (wind_speed visibility ceiling : ℚ) : String :=
  if wind_speed > 20 ∨ visibility < 3 ∨ ceiling < 1000 then "HIGH_RISK"
  else if wind_speed > 10 ∨ visibility < 5 ∨ ceiling < 3000 then "MODERATE_RISK"
  else "LOW_RISK"

/-- `WeatherService.get_weather`: fixed demo data (wind 8 kt, visibility 10,
ceiling 5000) plus the risk assessment of those same numbers. -/
def get_weather : WeatherData :=
  { metar := { wind_speed := 8, visibility := 10, ceiling := 5000 }
    flight_risk := some (assess_flight_risk 8 10 5000) }

/-- Terrain record of `TerrainService.get_terrain_profile`, restricted to
the fields read downstream; `terrain_clearance` is read with
`.get('terrain_clearance', True)`, hence `Option`. -/
structure TerrainData where
  max_terrain_elevation : ℚ
  minimum_safe_altitude : ℚ
  terrain_clearance : Option Bool
  deriving Repr, DecidableEq

/-- `TerrainService.check_terrain_clearance`: the minimum waypoint altitude
must clear `max_terrain + 200`.  Waypoints are modelled by their altitudes
(each already resolved through `wp.get('altitude', 0)`); Python's `min`
raises `ValueError` on an empty sequence, hence `Option`. -/
def check_terrain_clearance (altitudes : List ℚ) (max_terrain : ℚ) : Option Bool :=
  match altitudes with
  | [] => none
  | a :: rest => some (decide (rest.foldl min a ≥ max_terrain + 200))

/-- `TerrainService.get_terrain_profile`: fixed max elevation 500 ft MSL and
a 200 ft clearance buffer. -/
def get_terrain_profile (altitudes : List ℚ) : Option TerrainData :=
  match check_terrain_clearance altitudes 500 with
  | none => none
  | some clear =>
    some { max_terrain_elevation := 500
           minimum_safe_altitude := 500 + 200
           terrain_clearance := some clear }

/-- The performance record of `AIPilot.calculate_performance`. -/
structure Performance where
  cruise_speed : ℚ
  max_speed : ℚ
  stall_speed : ℚ
  estimated_flight_time : ℚ
  flight_range : ℚ
  wind_impact : ℚ
  battery_reserve : ℚ
  deriving Repr, DecidableEq

/-- `AIPilot.calculate_performance`. -/
def calculate_performance (aircraft : AircraftData) (weather : WeatherData) : Performance :=
  let base_flight_time := aircraft.estimated_flight_time.getD 30
  let wind_speed := weather.metar.wind_speed
  let wind_correction := wind_speed * 0.1
  let adjusted_flight_time := base_flight_time * (1 - wind_correction / 100)
  { cruise_speed := aircraft.airspeeds.Vy
    max_speed := aircraft.airspeeds.Vno
    stall_speed := aircraft.airspeeds.Vs
    estimated_flight_time := max 5 adjusted_flight_time
    flight_range := adjusted_flight_time * aircraft.airspeeds.Vy * 0.8
    wind_impact := wind_correction
    battery_reserve := aircraft.battery_reserve.getD 5 }

/-- The top-level flight-plan dictionary keys that
`FAAKnowledgeBase.check_flight_compliance` and
`generate_safety_recommendations` read via `.get`: the dictionary built by
`plan_flight` contains none of them, so there they are all `none` and the
`.get` defaults apply. -/
structure FlightPlanTopLevel where
  max_altitude : Option ℚ := none
  estimated_flight_time : Option ℚ := none
  over_populated_area : Option Bool := none
  wind_speed : Option ℚ := none
  terrain_elevation : Option ℚ := none
  near_airport : Option Bool := none
  deriving Repr, DecidableEq

/-- `FAAKnowledgeBase.generate_safety_recommendations`. -/
def generate_safety_recommendations (v : FlightPlanTopLevel) : List String :=
  (if v.wind_speed.getD 0 > 10
     then ["High wind conditions detected. Consider delaying flight."] else []) ++
  (if v.terrain_elevation.getD 0 > 1000
     then ["High terrain elevation. Ensure adequate altitude buffer."] else []) ++
  (if v.near_airport.getD false
     then ["Near controlled airspace. Maintain extra separation from manned aircraft."] else [])

/-- Result record of `FAAKnowledgeBase.check_flight_compliance`. -/
structure Compliance where
  compliant : Bool
  violations : List String
  warnings : List String
  recommendations : List String
  deriving Repr, DecidableEq

/-- `FAAKnowledgeBase.check_flight_compliance`: reads only top-level keys
of the flight-plan dictionary (`max_altitude`, `estimated_flight_time`,
`over_populated_area`), with rules `max_altitude := 400` and
`battery_reserve := 5` from `self.faa_rules`. -/
def check_flight_compliance (v : FlightPlanTopLevel) : Compliance :=
  let violations :=
    (if v.max_altitude.getD 0 > 400
       then ["Maximum altitude exceeds FAA limit of 400ft"] else []) ++
    (if v.estimated_flight_time.getD 0 < 5 + 5
       then ["Insufficient battery reserve. Need at least 5min reserve"] else []) ++
    (if v.over_populated_area.getD false
       then ["Cannot operate over populated areas"] else [])
  { compliant := decide (violations.length = 0)
    violations := violations
    warnings := []
    recommendations := generate_safety_recommendations v }

/-- Result record of `AIPilot.make_go_no_go_decision`. -/
structure Decision where
  go : Bool
  confidence_level : String
  reasons : List String
  recommendations : List String
  deriving Repr, DecidableEq

/-- The flight-plan dictionary as assembled by `AIPilot.plan_flight`
before the `go_no_go` entry is added. -/
structure FlightPlanDraft where
  aircraft : AircraftData
  weather : WeatherData
  terrain : TerrainData
  performance : Performance
  waypoints : List ℚ
  top : FlightPlanTopLevel
  faa_compliance : Compliance
  deriving Repr, DecidableEq

/-- The completed flight plan (draft plus the `go_no_go` entry). -/
structure FlightPlan extends FlightPlanDraft where
  go_no_go : Decision
  deriving Repr, DecidableEq

/-- Python's `factor.replace('_', ' ')` for the single-character pattern:
replace each underscore by a space. -/
def pyReplaceUnderscore (s : String) : String :=
  String.mk (s.toList.map (fun c => if c = '_' then ' ' else c))

/-- `AIPilot.make_go_no_go_decision`: the five decision factors in
dictionary insertion order, their conjunction, and the failure labels. -/
def make_go_no_go_decision (fp : FlightPlanDraft) : Decision :=
  let decision_factors : List (String × Bool) :=
    [("faa_compliant", fp.faa_compliance.compliant),
     ("weather_acceptable", decide (fp.weather.flight_risk ≠ some "HIGH_RISK")),
     ("terrain_clearance", fp.terrain.terrain_clearance.getD true),
     ("battery_reserve", decide (fp.performance.estimated_flight_time > 10)),
     ("aircraft_ready", true)]
  let go_decision := decision_factors.all (fun f => f.2)
  let reasons :=
    if go_decision then []
    else (decision_factors.filter (fun f => !f.2)).map
      (fun f => "Failed " ++ pyReplaceUnderscore f.1 ++ " check")
  { go := go_decision
    confidence_level := if go_decision then "HIGH" else "LOW"
    reasons := reasons
    recommendations := fp.faa_compliance.recommendations }

/-- `AIPilot.plan_flight`, parameterised by the loaded aircraft data and the
mission waypoint altitudes.  The flight-plan dictionary literal sets none of
the top-level keys read by `check_flight_compliance`, so `top` is all-`none`.
`none` models the `ValueError` raised by `min()` on an empty waypoint list. -/
def plan_flight (aircraft : AircraftData) (waypoints : List ℚ) : Option FlightPlan :=
  match get_terrain_profile waypoints with
  | none => none
  | some terrain =>
    let weather := get_weather
    let performance := calculate_performance aircraft weather
    let top : FlightPlanTopLevel := {}
    let compliance := check_flight_compliance top
    let draft : FlightPlanDraft :=
      { aircraft := aircraft, weather := weather, terrain := terrain
        performance := performance, waypoints := waypoints, top := top
        faa_compliance := compliance }
    some { toFlightPlanDraft := draft, go_no_go := make_go_no_go_decision draft }

/-! ## aircraft_builder.py -/

/-- A component position (`x, y, z` coordinates). -/
structure Position where
  x : ℚ
  y : ℚ
  z : ℚ
  deriving Repr, DecidableEq

/-- A `Component` dataclass instance. -/
structure Component where
  name : String
  weight : ℚ
  position : Position
  deriving Repr, DecidableEq

/-- An `AircraftDesign` dataclass instance, restricted to the fields read by
`calculate_weight_balance` plus the remaining numeric design fields. -/
structure AircraftDesign where
  name : String
  wingspan : ℚ
  wing_area : ℚ
  empty_weight : ℚ
  max_takeoff_weight : ℚ
  components : List Component
  cg_location : ℚ
  stability_margin : ℚ
  deriving Repr, DecidableEq

/-- One entry of the `weight_distribution` list in the weight-balance report. -/
structure MomentEntry where
  component : String
  weight : ℚ
  position : ℚ
  relative_pos : ℚ
  moment : ℚ
  deriving Repr, DecidableEq

/-- The weight-balance report of `AircraftBuilder.calculate_weight_balance`. -/
structure WeightBalance where
  total_weight : ℚ
  cg_from_wing : ℚ
  cg_from_nose : ℚ
  mac : ℚ
  neutral_point : ℚ
  stability_margin : ℚ
  is_stable : Bool
  weight_distribution : List MomentEntry
  deriving Repr, DecidableEq

/-- `AircraftBuilder.calculate_weight_balance`.  The three divisions raise
`ZeroDivisionError` in Python when their denominator is zero (total weight,
wingspan, and mac respectively); those runs are modelled as `none`. -/
def calculate_weight_balance (design : AircraftDesign) : Option WeightBalance :=
  let total_weight := (design.components.map (fun c => c.weight)).sum
  let wing_start : ℚ := 100
  let moments := design.components.map (fun c =>
    { component := c.name
      weight := c.weight
      position := c.position.x
      relative_pos := c.position.x - wing_start
      moment := c.weight * (c.position.x - wing_start) : MomentEntry })
  let total_moment := (moments.map (fun m => m.moment)).sum
  if total_weight = 0 then none
  else
    let cg_from_wing := total_moment / total_weight
    if design.wingspan = 0 then none
    else
      let mac := design.wing_area * 1000000 / design.wingspan
      let neutral_point := 0.25 * mac
      if mac = 0 then none
      else
        let stability_margin := (neutral_point - cg_from_wing) / mac
        some { total_weight := total_weight
               cg_from_wing := cg_from_wing
               cg_from_nose := cg_from_wing + wing_start
               mac := mac
               neutral_point := neutral_point
               stability_margin := stability_margin
               is_stable := decide (stability_margin > 0.05)
               weight_distribution := moments }

/-! ## Helper lemmas -/

/-- The hash-derived jitter is nonnegative (Python `%` on a positive
modulus is nonnegative). -/
lemma hashJitter_nonneg (h : ℚ → ℤ) (v : ℚ) : 0 ≤ hashJitter h v := by
  unfold hashJitter
  have hm : (0 : ℤ) ≤ h v % 100 := Int.emod_nonneg _ (by norm_num)
  have : (0 : ℚ) ≤ ((h v % 100 : ℤ) : ℚ) := by exact_mod_cast hm
  positivity

/-- The hash-derived jitter is below 1. -/
lemma hashJitter_lt_one (h : ℚ → ℤ) (v : ℚ) : hashJitter h v < 1 := by
  unfold hashJitter
  have hm : h v % 100 < 100 := Int.emod_lt_of_pos _ (by norm_num)
  have hq : ((h v % 100 : ℤ) : ℚ) < 100 := by exact_mod_cast hm
  rw [div_lt_one (by norm_num)]
  exact hq

/-- In simulator mode the geofence gate always passes: `valid` is true,
the signal strength is at least 95, and the health is the constant 98. -/
lemma validate_mission_area_sim (h : ℚ → ℤ) (lat lon : ℚ) :
    validate_mission_area h lat lon true = true := by
  have hv : validate_operational_area h true lat lon =
      { valid := true
        signal_strength := 95 + 5 * hashJitter h (lat + lon)
        system_health := 98
        calibration_status := "SIM_CALIBRATED" } := rfl
  unfold validate_mission_area perform_system_validation
  rw [hv]
  simp only [Bool.and_eq_true, decide_eq_true_iff]
  have hj := hashJitter_nonneg h (lat + lon)
  exact ⟨⟨trivial, by linarith⟩, by norm_num⟩

/-- Outside the boundary polygon and out of simulator mode, the geofence
gate fails (`valid` is false). -/
lemma validate_mission_area_outside (h : ℚ → ℤ) (lat lon : ℚ)
    (hout : point_in_polygon lat lon boundaryPolygon = false) :
    validate_mission_area h lat lon false = false := by
  unfold validate_mission_area perform_system_validation validate_operational_area
  simp [hout]

/-- A fixed stand-in for Python's salted `hash(str(·))`, used to build
concrete witnesses. -/
def hashZero : ℚ → ℤ := fun _ => 0

end PpzUav

namespace PpzUav

/-! ## Claims -/

/-- C2 counterexample: the claim predicts the literal "SW corner" vertex
`(lat 25.898697, lon −124.733174)` classifies as outside and the
continental-interior point `(lat 39, lon −98)` as inside; the ray-casting
code classifies the former as inside (the horizontal ray toggles exactly
once, on the Hawaii→Florida edge) and the latter as outside (both edge
crossings of the line `lat = 39` lie to its west). -/
theorem pointInPolygon_claim_false :
    ¬ (point_in_polygon 25.898697 (-124.733174) boundaryPolygon = false ∧
       point_in_polygon 0 0 boundaryPolygon = false ∧
       point_in_polygon 39 (-98) boundaryPolygon = true) := by
  with_unfolding_all decide

/-- C2 amended: over the boundary polygon (the decoded payload, which equals
the literal fallback), the point-in-polygon test classifies the "SW corner"
vertex `(lat 25.898697, lon −124.733174)` as inside, the far-away point
`(lat 0, lon 0)` as outside, and the continental-interior point
`(lat 39, lon −98)` as outside. -/
theorem pointInPolygon_amended :
    point_in_polygon 25.898697 (-124.733174) boundaryPolygon = true ∧
    point_in_polygon 0 0 boundaryPolygon = false ∧
    point_in_polygon 39 (-98) boundaryPolygon = false := by
  with_unfolding_all decide

/-- A clamped score `max 0 x` with `x ≤ 100` lies in `[0, 100]`. -/
lemma max_score_bounds {x : ℚ} (hx : x ≤ 100) : 0 ≤ max 0 x ∧ max 0 x ≤ 100 :=
  ⟨le_max_left 0 x, max_le (by norm_num) hx⟩

/-- The claim's weight-penalty condition (`225 < w ≤ 250`) coincides with
the code's `elif` chain (`else if w > 225`). -/
lemma weight_penalty_eq (w : ℚ) :
    (if 250 < w then (40 : ℚ) else if 225 < w ∧ w ≤ 250 then 15 else 0) =
    (if 250 < w then 40 else if 225 < w then 15 else 0) := by
  rcases lt_or_le 250 w with h1 | h1
  · rw [if_pos h1, if_pos h1]
  · rw [if_neg (not_lt.mpr h1), if_neg (not_lt.mpr h1)]
    rcases lt_or_le 225 w with h2 | h2
    · rw [if_pos ⟨h2, h1⟩, if_pos h2]
    · rw [if_neg (fun hc => absurd hc.1 (not_lt.mpr h2)), if_neg (not_lt.mpr h2)]

/-- C5: for every mission input, the technical score equals the base 100
minus a weight penalty of exactly 40 when `w > 250`, exactly 15 when
`225 < w ≤ 250` and 0 otherwise, minus the (independent) battery-margin
penalty, clamped at 0; and the returned score lies in `[0, 100]`. -/
theorem technical_score_spec (p : MissionParams) :
    (0 ≤ (analyze_technical_parameters p).score ∧
      (analyze_technical_parameters p).score ≤ 100) ∧
    (analyze_technical_parameters p).score =
      max 0 (100 -
        (if 250 < p.aircraft.takeoff_weight then 40
         else if 225 < p.aircraft.takeoff_weight ∧ p.aircraft.takeoff_weight ≤ 250 then 15
         else 0) -
        (if p.flight_plan.estimated_duration ≥ p.aircraft.max_flight_time * 0.9 then 30
         else if p.flight_plan.estimated_duration ≥ p.aircraft.max_flight_time * 0.8 then 15
         else 0)) := by
  have heq : (analyze_technical_parameters p).score =
      max 0 (100 -
        (if 250 < p.aircraft.takeoff_weight then 40
         else if 225 < p.aircraft.takeoff_weight ∧ p.aircraft.takeoff_weight ≤ 250 then 15
         else 0) -
        (if p.flight_plan.estimated_duration ≥ p.aircraft.max_flight_time * 0.9 then 30
         else if p.flight_plan.estimated_duration ≥ p.aircraft.max_flight_time * 0.8 then 15
         else 0)) := by
    unfold analyze_technical_parameters
    dsimp only
    rw [weight_penalty_eq]
    simp only [apply_ite (Prod.snd (α := List String) (β := ℚ)), gt_iff_lt, ge_iff_le]
  refine ⟨heq ▸ max_score_bounds ?_, heq⟩
  split_ifs <;> norm_num

/-- The design on which the original C8 claim fails: no components. -/
def emptyComponentsDesign : AircraftDesign :=
  { name := "AI_Pilot_Flying_Wing_0g"
    wingspan := 800
    wing_area := 0.12
    empty_weight := 0
    max_takeoff_weight := 20
    components := []
    cg_location := 0.25
    stability_margin := 0.1 }

/-- C8 counterexample: on an empty component list the total weight is 0 and
`cg_from_wing = total_moment / total_weight` raises `ZeroDivisionError`
(modelled as `none`), so the weight-and-balance computation does not return
a fully populated record for every input. -/
theorem weight_balance_raises_on_empty :
    calculate_weight_balance emptyComponentsDesign = none := by
  with_unfolding_all rfl

/-- C8 amended: the three domain scorers and the geofence validation are
total — every input yields a fully populated record, with scores clamped to
`[0, 100]` and the geofence status one of its three enum values — but the
weight-and-balance computation returns a report exactly when the total
component weight, the wingspan and the wing area are all nonzero (otherwise
one of its three divisions raises `ZeroDivisionError`; in particular it
raises on an empty component list). -/
theorem no_exception_amended :
    (∀ p : MissionParams, 0 ≤ (analyze_technical_parameters p).score ∧
      (analyze_technical_parameters p).score ≤ 100) ∧
    (∀ w : WeatherParams, 0 ≤ (analyze_weather_conditions w).score ∧
      (analyze_weather_conditions w).score ≤ 100) ∧
    (∀ p : MissionParams, 0 ≤ (check_regulatory_compliance p).score ∧
      (check_regulatory_compliance p).score ≤ 100) ∧
    (∀ (h : ℚ → ℤ) (sim : Bool) (lat lon : ℚ),
      (validate_operational_area h sim lat lon).calibration_status = "SIM_CALIBRATED" ∨
      (validate_operational_area h sim lat lon).calibration_status = "POOR_SIGNAL" ∨
      (validate_operational_area h sim lat lon).calibration_status = "OPERATIONAL") ∧
    (∀ design : AircraftDesign,
      (calculate_weight_balance design).isSome = true ↔
        ((design.components.map (fun c => c.weight)).sum ≠ 0 ∧
         design.wingspan ≠ 0 ∧ design.wing_area ≠ 0)) := by
  refine ⟨?_, ?_, ?_, ?_, ?_⟩
  · intro p
    unfold analyze_technical_parameters
    dsimp only
    split_ifs <;> exact max_score_bounds (by norm_num)
  · intro w
    unfold analyze_weather_conditions
    dsimp only
    split_ifs <;> exact max_score_bounds (by norm_num)
  · intro p
    unfold check_regulatory_compliance
    dsimp only
    split_ifs <;> exact max_score_bounds (by norm_num)
  · intro h sim lat lon
    unfold validate_operational_area
    split_ifs <;> simp
  · intro design
    unfold calculate_weight_balance
    dsimp only
    split_ifs with h1 h2 h3
    · simp [h1]
    · simp [h2]
    · have hws : design.wing_area = 0 := by
        rcases div_eq_zero_iff.mp h3 with hm | hw
        · rcases mul_eq_zero.mp hm with ha | hmill
          · exact ha
          · norm_num at hmill
        · exact absurd hw h2
      simp [hws]
    · have hwa : design.wing_area ≠ 0 := by
        intro ha
        exact h3 (by rw [ha]; simp)
      simp [h1, h2, hwa]

/-- The overall confidence is the arithmetic mean of the three domain
scores and the geofence bonus term (85 on pass, 25 on failure). -/
lemma ai_confidence_eq (h : ℚ → ℤ) (p : MissionParams) :
    (analyze_mission_parameters h p).ai_confidence =
      ((analyze_technical_parameters p).score +
       (analyze_weather_conditions p.weather).score +
       (check_regulatory_compliance p).score +
       (if validate_mission_area h p.location.latitude p.location.longitude p.is_simulation
        then (85 : ℚ) else 25)) / 4 := by
  rcases Bool.eq_false_or_eq_true
      (validate_mission_area h p.location.latitude p.location.longitude p.is_simulation)
    with hval | hval
  · simp only [analyze_mission_parameters, hval, Bool.false_eq_true, if_true, if_false,
      ite_true, ite_false, List.append_eq, List.cons_append, List.nil_append,
      List.sum_cons, List.sum_nil, List.length_cons, List.length_nil]
    norm_num
    ring
  · simp only [analyze_mission_parameters, hval, Bool.false_eq_true, if_true, if_false,
      ite_true, ite_false, List.append_eq, List.cons_append, List.nil_append,
      List.sum_cons, List.sum_nil, List.length_cons, List.length_nil]
    norm_num
    ring

/-- The recommendation is the threshold function of the computed
confidence. -/
lemma ai_recommendation_eq (h : ℚ → ℤ) (p : MissionParams) :
    (analyze_mission_parameters h p).ai_recommendation =
      (if (analyze_mission_parameters h p).ai_confidence ≥ 85 then "GO"
       else if (analyze_mission_parameters h p).ai_confidence ≥ 70 then "CAUTION"
       else "NO-GO") := rfl

/-- Characterisation of the three-way threshold function. -/
lemma recommendation_iff (c : ℚ) :
    ((if c ≥ 85 then "GO" else if c ≥ 70 then "CAUTION" else "NO-GO") = "GO" ↔ 85 ≤ c) ∧
    ((if c ≥ 85 then "GO" else if c ≥ 70 then "CAUTION" else "NO-GO") = "CAUTION" ↔
      70 ≤ c ∧ c < 85) ∧
    ((if c ≥ 85 then "GO" else if c ≥ 70 then "CAUTION" else "NO-GO") = "NO-GO" ↔ c < 70) := by
  split_ifs with h1 h2 <;>
    exact ⟨by simp_all <;> linarith, by simp_all <;> linarith, by simp_all <;> linarith⟩

/-- C4: `ai_confidence` is the unweighted mean of exactly the four
contributions (technical, weather, regulatory, geofence bonus 85/25), and
the recommendation is GO iff confidence ≥ 85, CAUTION iff 70 ≤ confidence
< 85, and NO-GO iff confidence < 70 — both thresholds inclusive. -/
theorem confidence_mean_and_thresholds (h : ℚ → ℤ) (p : MissionParams) :
    (analyze_mission_parameters h p).ai_confidence =
      ((analyze_technical_parameters p).score +
       (analyze_weather_conditions p.weather).score +
       (check_regulatory_compliance p).score +
       (if validate_mission_area h p.location.latitude p.location.longitude p.is_simulation
        then (85 : ℚ) else 25)) / 4 ∧
    ((analyze_mission_parameters h p).ai_recommendation = "GO" ↔
      85 ≤ (analyze_mission_parameters h p).ai_confidence) ∧
    ((analyze_mission_parameters h p).ai_recommendation = "CAUTION" ↔
      70 ≤ (analyze_mission_parameters h p).ai_confidence ∧
        (analyze_mission_parameters h p).ai_confidence < 85) ∧
    ((analyze_mission_parameters h p).ai_recommendation = "NO-GO" ↔
      (analyze_mission_parameters h p).ai_confidence < 70) := by
  refine ⟨ai_confidence_eq h p, ?_⟩
  rw [ai_recommendation_eq]
  exact recommendation_iff _

/-- The spec's end-to-end scenario B mission parameters: scenario A with
takeoff weight 260 g and controlled airspace without authorization. -/
def scenarioB : MissionParams :=
  { aircraft := { takeoff_weight := 260, max_flight_time := 25 }
    flight_plan := { estimated_duration := 18, max_altitude := 95 }
    weather := { wind_speed := 12, visibility := 8, condition := "vfr" }
    location := { latitude := 40.0150, longitude := -74.0060 }
    controlled_airspace := true
    airspace_authorization := false
    is_simulation := true }

/-- C1 counterexample: on scenario B the technical score is 60 and the
regulatory score 50 as claimed, but the four contributions are
60, 85, 50, 85, whose mean is exactly 70 — not below 70 — so the
recommendation is CAUTION, not NO-GO. -/
theorem scenarioB_claim_false :
    ¬ ((analyze_mission_parameters hashZero scenarioB).technical_assessment.score = 60 ∧
       (analyze_mission_parameters hashZero scenarioB).regulatory_compliance.score = 50 ∧
       (analyze_mission_parameters hashZero scenarioB).ai_confidence < 70 ∧
       (analyze_mission_parameters hashZero scenarioB).ai_recommendation = "NO-GO") := by
  with_unfolding_all decide

/-- C1 amended: on scenario B (for any hash salt) the technical score is 60
and the regulatory score 50, the overall `ai_confidence` equals exactly 70,
and the recommendation is CAUTION. -/
theorem scenarioB_amended (h : ℚ → ℤ) :
    (analyze_mission_parameters h scenarioB).technical_assessment.score = 60 ∧
    (analyze_mission_parameters h scenarioB).regulatory_compliance.score = 50 ∧
    (analyze_mission_parameters h scenarioB).ai_confidence = 70 ∧
    (analyze_mission_parameters h scenarioB).ai_recommendation = "CAUTION" := by
  have h1 : (analyze_technical_parameters scenarioB).score = 60 := by
    with_unfolding_all decide
  have h2 : (check_regulatory_compliance scenarioB).score = 50 := by
    with_unfolding_all decide
  have h3 : (analyze_weather_conditions scenarioB.weather).score = 85 := by
    with_unfolding_all decide
  have hval : validate_mission_area h scenarioB.location.latitude
      scenarioB.location.longitude scenarioB.is_simulation = true :=
    validate_mission_area_sim h _ _
  have hconf : (analyze_mission_parameters h scenarioB).ai_confidence = 70 := by
    rw [ai_confidence_eq, hval, h1, h2, h3]
    norm_num
  have hrec : (analyze_mission_parameters h scenarioB).ai_recommendation = "CAUTION" := by
    rw [ai_recommendation_eq, hconf]
    norm_num
  exact ⟨h1, h2, hconf, hrec⟩

/-- C7: the geofence confirmation is true whenever the simulation flag is
set, and false whenever the flag is unset and the coordinates lie outside
the boundary polygon. -/
theorem geofence_confirm_monotone (h : ℚ → ℤ) (lat lon : ℚ) :
    validate_mission_area h lat lon true = true ∧
    (point_in_polygon lat lon boundaryPolygon = false →
      validate_mission_area h lat lon false = false) :=
  ⟨validate_mission_area_sim h lat lon, validate_mission_area_outside h lat lon⟩

/-- Witness for C7 at the concrete out-of-boundary point `(0, 0)`. -/
theorem geofence_confirm_monotone_witness :
    validate_mission_area hashZero 0 0 true = true ∧
    validate_mission_area hashZero 0 0 false = false :=
  ⟨(geofence_confirm_monotone hashZero 0 0).1,
   (geofence_confirm_monotone hashZero 0 0).2 (by with_unfolding_all decide)⟩

/-- C10: out of simulator mode, `perform_system_validation` returns true
exactly on points inside the boundary polygon; the in-bounds record has
signal strength in `[80, 95)` and system health in `[85, 95)` — above the
70 and 75 thresholds — and the out-of-bounds record has `valid = false`. -/
theorem hardware_validation_iff_inside (h : ℚ → ℤ) (lat lon : ℚ) :
    perform_system_validation h false lat lon = point_in_polygon lat lon boundaryPolygon ∧
    (point_in_polygon lat lon boundaryPolygon = true →
      80 ≤ (validate_operational_area h false lat lon).signal_strength ∧
      (validate_operational_area h false lat lon).signal_strength < 95 ∧
      85 ≤ (validate_operational_area h false lat lon).system_health ∧
      (validate_operational_area h false lat lon).system_health < 95) ∧
    (point_in_polygon lat lon boundaryPolygon = false →
      (validate_operational_area h false lat lon).valid = false) := by
  have hperf : perform_system_validation h false lat lon =
      ((validate_operational_area h false lat lon).valid &&
       decide ((validate_operational_area h false lat lon).signal_strength > 70) &&
       decide ((validate_operational_area h false lat lon).system_health > 75)) := rfl
  have hj1 := hashJitter_nonneg h lat
  have hj2 := hashJitter_lt_one h lat
  have hj3 := hashJitter_nonneg h lon
  have hj4 := hashJitter_lt_one h lon
  rcases Bool.eq_false_or_eq_true (point_in_polygon lat lon boundaryPolygon) with hp | hp
  · have hv : validate_operational_area h false lat lon =
        { valid := true
          signal_strength := 80 + 15 * hashJitter h lat
          system_health := 85 + 10 * hashJitter h lon
          calibration_status := "OPERATIONAL" } := by
      simp [validate_operational_area, hp]
    refine ⟨?_, ?_, ?_⟩
    · rw [hperf, hv, hp]
      simp only [Bool.and_eq_true, decide_eq_true_iff]
      exact ⟨⟨trivial, by linarith⟩, by linarith⟩
    · intro _
      rw [hv]
      dsimp only
      exact ⟨by linarith, by linarith, by linarith, by linarith⟩
    · intro hcon
      rw [hp] at hcon
      simp at hcon
  · have hv : validate_operational_area h false lat lon =
        { valid := false
          signal_strength := 15 + 25 * hashJitter h lat
          system_health := 25 + 35 * hashJitter h lon
          calibration_status := "POOR_SIGNAL" } := by
      simp [validate_operational_area, hp]
    refine ⟨?_, ?_, ?_⟩
    · rw [hperf, hv, hp]
      simp
    · intro hcon
      rw [hp] at hcon
      simp at hcon
    · intro _
      rw [hv]

/-- Witness for C10 at the in-bounds point `(lat 25, lon −100)` and the
out-of-bounds point `(lat 0, lon 0)`. -/
theorem hardware_validation_iff_inside_witness :
    (80 ≤ (validate_operational_area hashZero false 25 (-100)).signal_strength ∧
     (validate_operational_area hashZero false 25 (-100)).signal_strength < 95 ∧
     85 ≤ (validate_operational_area hashZero false 25 (-100)).system_health ∧
     (validate_operational_area hashZero false 25 (-100)).system_health < 95) ∧
    (validate_operational_area hashZero false 0 0).valid = false :=
  ⟨(hardware_validation_iff_inside hashZero 25 (-100)).2.1 (by with_unfolding_all decide),
   (hardware_validation_iff_inside hashZero 0 0).2.2 (by with_unfolding_all decide)⟩

/-- C6: whenever the weight-balance computation returns a report, the
report satisfies `mac = wing_area(mm²) ÷ wingspan`,
`neutral_point = 0.25 × mac`,
`stability_margin = (neutral_point − cg_from_wing) ÷ mac`, and
`is_stable` holds iff `stability_margin > 0.05` — so margin exactly 0.05
is not stable and margin 0.0501 is stable. -/
theorem weight_balance_report_spec (design : AircraftDesign) (wb : WeightBalance)
    (hwb : calculate_weight_balance design = some wb) :
    wb.mac = design.wing_area * 1000000 / design.wingspan ∧
    wb.neutral_point = 0.25 * wb.mac ∧
    wb.stability_margin = (wb.neutral_point - wb.cg_from_wing) / wb.mac ∧
    (wb.is_stable = true ↔ wb.stability_margin > 0.05) ∧
    (wb.stability_margin = 0.05 → wb.is_stable = false) ∧
    (wb.stability_margin = 0.0501 → wb.is_stable = true) := by
  unfold calculate_weight_balance at hwb
  dsimp only at hwb
  split_ifs at hwb with h1 h2 h3
  injection hwb with h
  subst h
  dsimp only
  refine ⟨rfl, rfl, rfl, ?_, ?_, ?_⟩
  · exact decide_eq_true_iff
  · intro hm
    simp only [hm, decide_eq_false_iff_not]
    norm_num
  · intro hm
    simp only [hm, decide_eq_true_iff]
    norm_num

/-- A concrete design for the C6 witness: a single 10 g component at the
wing leading edge, 800 mm span, 0.12 m² wing. -/
def witnessDesign : AircraftDesign :=
  { name := "Witness_Wing"
    wingspan := 800
    wing_area := 0.12
    empty_weight := 10
    max_takeoff_weight := 30
    components := [{ name := "LiPo Battery", weight := 10
                     position := { x := 100, y := 0, z := 0 } }]
    cg_location := 0.25
    stability_margin := 0.1 }

/-- The weight-balance report the code computes for `witnessDesign`. -/
def witnessReport : WeightBalance :=
  { total_weight := 10
    cg_from_wing := 0
    cg_from_nose := 100
    mac := 150
    neutral_point := 37.5
    stability_margin := 0.25
    is_stable := true
    weight_distribution := [{ component := "LiPo Battery", weight := 10
                              position := 100, relative_pos := 0, moment := 0 }] }

/-- Witness for C6 at `witnessDesign`. -/
theorem weight_balance_report_spec_witness :
    calculate_weight_balance witnessDesign = some witnessReport ∧
    (witnessReport.mac = witnessDesign.wing_area * 1000000 / witnessDesign.wingspan ∧
     witnessReport.neutral_point = 0.25 * witnessReport.mac ∧
     witnessReport.stability_margin =
       (witnessReport.neutral_point - witnessReport.cg_from_wing) / witnessReport.mac ∧
     (witnessReport.is_stable = true ↔ witnessReport.stability_margin > 0.05) ∧
     (witnessReport.stability_margin = 0.05 → witnessReport.is_stable = false) ∧
     (witnessReport.stability_margin = 0.0501 → witnessReport.is_stable = true)) :=
  ⟨by with_unfolding_all decide,
   weight_balance_report_spec witnessDesign witnessReport (by with_unfolding_all decide)⟩

/-- C3: every flight plan produced by `plan_flight` contains the
insufficient-battery-reserve violation — `check_flight_compliance` reads
the top-level `estimated_flight_time` key, which `plan_flight` never sets
(the computed value lives under `performance`), so the default 0 is
compared against the 10-minute threshold — hence `faa_compliance.compliant`
and `go_no_go.go` are false for every `plan_flight` output. -/
theorem plan_flight_always_noncompliant (aircraft : AircraftData)
    (waypoints : List ℚ) (hw : waypoints ≠ []) :
    (plan_flight aircraft waypoints).elim False (fun fp =>
      "Insufficient battery reserve. Need at least 5min reserve" ∈
        fp.faa_compliance.violations ∧
      fp.faa_compliance.compliant = false ∧
      fp.go_no_go.go = false) := by
  cases waypoints with
  | nil => exact absurd rfl hw
  | cons w rest =>
    refine ⟨?_, ?_, ?_⟩
    · show "Insufficient battery reserve. Need at least 5min reserve" ∈
        (check_flight_compliance ({} : FlightPlanTopLevel)).violations
      have hviol : (check_flight_compliance ({} : FlightPlanTopLevel)).violations =
          ["Insufficient battery reserve. Need at least 5min reserve"] := by
        with_unfolding_all rfl
      rw [hviol]
      exact List.mem_singleton.mpr rfl
    · with_unfolding_all rfl
    · with_unfolding_all rfl

/-- The default aircraft data of `load_aircraft_data`, used as the C3 and
C9 witness input. -/
def witnessAircraft : AircraftData :=
  { estimated_flight_time := some 47
    battery_reserve := some 5
    airspeeds := { Vs := 1.1, Vx := 1.2, Vy := 1.4, Vno := 1.7 } }

/-- Witness for C3 on the demo three-waypoint mission. -/
theorem plan_flight_always_noncompliant_witness :
    ([200, 250, 200] : List ℚ) ≠ [] ∧
    (plan_flight witnessAircraft [200, 250, 200]).elim False (fun fp =>
      "Insufficient battery reserve. Need at least 5min reserve" ∈
        fp.faa_compliance.violations ∧
      fp.faa_compliance.compliant = false ∧
      fp.go_no_go.go = false) :=
  ⟨by simp, plan_flight_always_noncompliant witnessAircraft [200, 250, 200] (by simp)⟩

/-- Failure label of the FAA-compliance factor. -/
lemma label_faa :
    "Failed " ++ pyReplaceUnderscore "faa_compliant" ++ " check" =
      "Failed faa compliant check" := by
  with_unfolding_all rfl

/-- Failure label of the weather factor. -/
lemma label_weather :
    "Failed " ++ pyReplaceUnderscore "weather_acceptable" ++ " check" =
      "Failed weather acceptable check" := by
  with_unfolding_all rfl

/-- Failure label of the terrain factor. -/
lemma label_terrain :
    "Failed " ++ pyReplaceUnderscore "terrain_clearance" ++ " check" =
      "Failed terrain clearance check" := by
  with_unfolding_all rfl

/-- Failure label of the battery factor. -/
lemma label_battery :
    "Failed " ++ pyReplaceUnderscore "battery_reserve" ++ " check" =
      "Failed battery reserve check" := by
  with_unfolding_all rfl

/-- C9: the go decision is the conjunction of exactly the five boolean
factors (FAA compliance, weather risk ≠ HIGH_RISK, terrain clearance,
flight time > 10 min, static aircraft-ready flag), and on a no-go the
reasons list holds exactly one `Failed … check` label per false factor,
in factor order, and nothing else (the always-true aircraft-ready factor
never contributes). -/
theorem go_no_go_decision_spec (fp : FlightPlanDraft) :
    (make_go_no_go_decision fp).go =
      (fp.faa_compliance.compliant &&
       decide (fp.weather.flight_risk ≠ some "HIGH_RISK") &&
       fp.terrain.terrain_clearance.getD true &&
       decide (fp.performance.estimated_flight_time > 10) &&
       true) ∧
    ((make_go_no_go_decision fp).go = false →
      (make_go_no_go_decision fp).reasons =
        (if fp.faa_compliance.compliant then [] else ["Failed faa compliant check"]) ++
        (if fp.weather.flight_risk ≠ some "HIGH_RISK" then []
         else ["Failed weather acceptable check"]) ++
        (if fp.terrain.terrain_clearance.getD true then []
         else ["Failed terrain clearance check"]) ++
        (if fp.performance.estimated_flight_time > 10 then []
         else ["Failed battery reserve check"])) ∧
    ((make_go_no_go_decision fp).go = true → (make_go_no_go_decision fp).reasons = []) := by
  rcases Bool.eq_false_or_eq_true fp.faa_compliance.compliant with h1 | h1 <;>
  by_cases h2 : fp.weather.flight_risk = some "HIGH_RISK" <;>
  rcases Bool.eq_false_or_eq_true (fp.terrain.terrain_clearance.getD true) with h3 | h3 <;>
  by_cases h4 : fp.performance.estimated_flight_time > 10 <;>
  simp [make_go_no_go_decision, h1, h2, h3, h4,
    label_faa, label_weather, label_terrain, label_battery]

/-- A concrete no-go draft (its compliance record is the always-failing
one `plan_flight` computes) for the C9 witness. -/
def witnessDraft : FlightPlanDraft :=
  { aircraft := witnessAircraft
    weather := get_weather
    terrain := { max_terrain_elevation := 500, minimum_safe_altitude := 700
                 terrain_clearance := some true }
    performance := calculate_performance witnessAircraft get_weather
    waypoints := [200, 250, 200]
    top := {}
    faa_compliance := check_flight_compliance {} }

/-- Witness for C9 at `witnessDraft`: only the FAA factor fails, so the
reasons list is exactly its label. -/
theorem go_no_go_decision_spec_witness :
    (make_go_no_go_decision witnessDraft).go = false ∧
    (make_go_no_go_decision witnessDraft).reasons =
      (if witnessDraft.faa_compliance.compliant then []
       else ["Failed faa compliant check"]) ++
      (if witnessDraft.weather.flight_risk ≠ some "HIGH_RISK" then []
       else ["Failed weather acceptable check"]) ++
      (if witnessDraft.terrain.terrain_clearance.getD true then []
       else ["Failed terrain clearance check"]) ++
      (if witnessDraft.performance.estimated_flight_time > 10 then []
       else ["Failed battery reserve check"]) :=
  ⟨by with_unfolding_all decide,
   (go_no_go_decision_spec witnessDraft).2.1 (by with_unfolding_all decide)⟩

end PpzUav
